import Mathlib

/-!
Verification development for the Midlakes United schedule bot (`src/bot.py`).

The Python source is shallowly embedded: each effectful call site is
parameterised by an outcome oracle (`Nat → ...` giving the outcome of the
n-th attempt), timestamps are naturals (seconds on a single UTC timeline),
and the reconciliation run `check_calendar` returns a trace of the
downstream actions it performed together with its terminal outcome and the
state of the mutual-exclusion gate.
-/

namespace MidlakesBot

/-- A Discord scheduled event as returned by `guild.fetch_scheduled_events`
or `guild.create_scheduled_event`: only the fields the script reads. -/
structure SEvent where
  name : String
  start_time : Nat
  deriving DecidableEq, Repr

/-- A parsed candidate appointment, mirroring the dict built in
`parse_schedule` (`src/bot.py:254-260`). -/
structure EventData where
  name : String
  start_time : Nat
  end_time : Nat
  location : String
  description : String
  deriving DecidableEq, Repr

/-- Outcome of one attempt of the raw HTTP fetch in
`fetch_static_html_with_retry`: either the page body (already parsed into
its soup structure, see `Page`) or an exception message (network error or
the non-200 `raise` at `src/bot.py:187`). -/
inductive FetchOutcome (page : Type) where
  | ok (body : page)
  | err (msg : String)

/-- Outcome of one attempt of a Discord API call: a value, or a
`discord.HTTPException` with its status code and — when the server advises
one — a `retry_after` delay (`getattr(e, 'retry_after', ...)`). -/
inductive CallOutcome (α : Type) where
  | success (val : α)
  | httpError (status : Nat) (retryAfter : Option Nat)

/-- The message under which an `HTTPException` is re-raised/logged. -/
def httpErrMsg (status : Nat) : String :=
  "HTTP error " ++ toString status

/-- Result of running one retry envelope: the returned value (an
`Except.error` models a raised exception; `Except.ok none` models the
function falling off the end of its `for` loop and returning `None`),
the number of attempts performed, and the sleeps inserted between
attempts, in order. -/
structure EnvelopeRun (α : Type) where
  result : Except String α
  attempts : Nat
  sleeps : List Nat
  deriving Repr

/-- The loop of `fetch_static_html_with_retry` (`src/bot.py:177-195`),
structurally recursive on `remaining = max_retries - attempt`. On failure
at the last attempt the exception is re-raised; otherwise the code sleeps
`2 ** attempt` and retries. If the loop exhausts without running
(`max_retries = 0`) Python returns `None`. -/
def fetch_go {page : Type} (oc : Nat → FetchOutcome page) :
    Nat → Nat → EnvelopeRun (Option page)
  | 0, _ => ⟨Except.ok none, 0, []⟩
  | remaining + 1, attempt =>
    match oc attempt with
    | FetchOutcome.ok body => ⟨Except.ok (some body), 1, []⟩
    | FetchOutcome.err e =>
      if remaining = 0 then ⟨Except.error e, 1, []⟩
      else
        let rest := fetch_go oc remaining (attempt + 1)
        ⟨rest.result, rest.attempts + 1, (2 ^ attempt) :: rest.sleeps⟩

/-- `fetch_static_html_with_retry(url, max_retries=3)` of `src/bot.py:162`. -/
def fetch_static_html_with_retry {page : Type} (oc : Nat → FetchOutcome page)
    (max_retries : Nat := 3) : EnvelopeRun (Option page) :=
  fetch_go oc max_retries 0

/-- The loop of `create_event_safely` (`src/bot.py:287-310`). A 429
response sleeps the advised `retry_after` (default `2 ** attempt`) and
retries; a non-429 exception at the last attempt is re-raised; any other
exception sleeps `2 ** attempt`. When the loop exhausts (which happens
when the final attempt is rate-limited) the function returns `None`. -/
def create_go (oc : Nat → CallOutcome SEvent) :
    Nat → Nat → EnvelopeRun (Option SEvent)
  | 0, _ => ⟨Except.ok none, 0, []⟩
  | remaining + 1, attempt =>
    match oc attempt with
    | CallOutcome.success ev => ⟨Except.ok (some ev), 1, []⟩
    | CallOutcome.httpError status rta =>
      if status = 429 then
        let rest := create_go oc remaining (attempt + 1)
        ⟨rest.result, rest.attempts + 1, rta.getD (2 ^ attempt) :: rest.sleeps⟩
      else if remaining = 0 then ⟨Except.error (httpErrMsg status), 1, []⟩
      else
        let rest := create_go oc remaining (attempt + 1)
        ⟨rest.result, rest.attempts + 1, (2 ^ attempt) :: rest.sleeps⟩

/-- `create_event_safely(guild, event_data, max_retries=3)` of `src/bot.py:271`. -/
def create_event_safely (oc : Nat → CallOutcome SEvent)
    (max_retries : Nat := 3) : EnvelopeRun (Option SEvent) :=
  create_go oc max_retries 0

/-- The loop of `send_announcement_safely` (`src/bot.py:325-340`): same
shape as `create_go`; a normal return carries no value (`Option Unit`
distinguishes the explicit `return` from the fall-through `None`, both of
which the caller observes as a non-exception). -/
def send_go (oc : Nat → CallOutcome Unit) :
    Nat → Nat → EnvelopeRun (Option Unit)
  | 0, _ => ⟨Except.ok none, 0, []⟩
  | remaining + 1, attempt =>
    match oc attempt with
    | CallOutcome.success _ => ⟨Except.ok (some ()), 1, []⟩
    | CallOutcome.httpError status rta =>
      if status = 429 then
        let rest := send_go oc remaining (attempt + 1)
        ⟨rest.result, rest.attempts + 1, rta.getD (2 ^ attempt) :: rest.sleeps⟩
      else if remaining = 0 then ⟨Except.error (httpErrMsg status), 1, []⟩
      else
        let rest := send_go oc remaining (attempt + 1)
        ⟨rest.result, rest.attempts + 1, (2 ^ attempt) :: rest.sleeps⟩

/-- `send_announcement_safely(channel, message, max_retries=3)` of `src/bot.py:312`. -/
def send_announcement_safely (oc : Nat → CallOutcome Unit)
    (max_retries : Nat := 3) : EnvelopeRun (Option Unit) :=
  send_go oc max_retries 0

/-- The inline retry loop around `guild.fetch_scheduled_events()` in
`check_calendar` (`src/bot.py:387-401`): same 429 handling; on a non-429
exception at attempt 2 the exception is re-raised; if the loop exhausts
with only 429s, `existing` stays `None` and the run returns early
(`src/bot.py:403-405`). -/
def fetchExisting_go (oc : Nat → CallOutcome (List SEvent)) :
    Nat → Nat → EnvelopeRun (Option (List SEvent))
  | 0, _ => ⟨Except.ok none, 0, []⟩
  | remaining + 1, attempt =>
    match oc attempt with
    | CallOutcome.success lst => ⟨Except.ok (some lst), 1, []⟩
    | CallOutcome.httpError status rta =>
      if status = 429 then
        let rest := fetchExisting_go oc remaining (attempt + 1)
        ⟨rest.result, rest.attempts + 1, rta.getD (2 ^ attempt) :: rest.sleeps⟩
      else if remaining = 0 then ⟨Except.error (httpErrMsg status), 1, []⟩
      else
        let rest := fetchExisting_go oc remaining (attempt + 1)
        ⟨rest.result, rest.attempts + 1, (2 ^ attempt) :: rest.sleeps⟩

/-! ## The schedule parser (`parse_schedule`, `src/bot.py:197-267`)

The raw HTML string is embedded as its soup structure: the page's first
`h1` text (if any) and the list of `.Upcoming` blocks, each block carrying
the stripped texts of its `.GameDate`, `.GameTime`, `.OpponentName` and
`.ThemeNight` elements (`none` when `select_one` finds no such element,
in which case the `.get_text` call raises and the record is skipped). -/

/-- One `.Upcoming` event block of the schedule page. -/
structure Block where
  gameDate : Option String
  gameTime : Option String
  opponentName : Option String
  themeNight : Option String
  deriving DecidableEq, Repr

/-- The soup of the schedule page. -/
structure Page where
  h1 : Option String
  blocks : List Block
  deriving DecidableEq, Repr

/-- Numeric value of a list of ASCII digits. -/
def natOfDigits (l : List Char) : Nat :=
  l.foldl (fun n c => n * 10 + (c.toNat - 48)) 0

/-- `re.search(r'(\d{4})', text)`: the leftmost run of four consecutive
digits, as a number (`src/bot.py:228`). -/
def findYear4 : List Char → Option Nat
  | c1 :: c2 :: c3 :: c4 :: rest =>
    if c1.isDigit && c2.isDigit && c3.isDigit && c4.isDigit then
      some (natOfDigits [c1, c2, c3, c4])
    else findYear4 (c2 :: c3 :: c4 :: rest)
  | _ => none

/-- Split a character list into maximal whitespace-free tokens (the `\s+`
separators that `strptime` puts between format fields). -/
def splitTokens : List Char → List Char → List (List Char)
  | [], acc => if acc.isEmpty then [] else [acc.reverse]
  | c :: rest, acc =>
    if c.isWhitespace then
      if acc.isEmpty then splitTokens rest []
      else acc.reverse :: splitTokens rest []
    else splitTokens rest (c :: acc)

/-- Split a token at the literal colons of the `%I:%M` part. -/
def splitColon : List Char → List Char → List (List Char)
  | [], acc => [acc.reverse]
  | c :: rest, acc =>
    if c = ':' then acc.reverse :: splitColon rest []
    else splitColon rest (c :: acc)

/-- ASCII lowercase of one character (the `re.IGNORECASE` matching of
`strptime` on its ASCII directive values). -/
def lowerAscii (c : Char) : Char :=
  if c.toNat ≥ 65 && c.toNat ≤ 90 then Char.ofNat (c.toNat + 32) else c

/-- ASCII lowercase of a string. -/
def strLower (s : String) : String := String.mk (s.toList.map lowerAscii)

/-- The month names recognised by `%B` (matched case-insensitively). -/
def monthNames : List String :=
  ["january", "february", "march", "april", "may", "june",
   "july", "august", "september", "october", "november", "december"]

/-- Parse a `%B` month-name token. -/
def parseMonth (t : String) : Option Nat :=
  (monthNames.findIdx? (fun m => m = strLower t)).map (· + 1)

/-- Parse a one- or two-digit numeric field (`%d`, `%I`, `%M`) whose value
must lie in `[lo, hi]`. -/
def parse2Digit (lo hi : Nat) (t : String) : Option Nat :=
  let cs := t.toList
  if (cs.length = 1 || cs.length = 2) && cs.all Char.isDigit then
    let v := natOfDigits cs
    if lo ≤ v && v ≤ hi then some v else none
  else none

/-- Parse a `%Y` field: exactly four digits. -/
def parse4DigitYear (t : String) : Option Nat :=
  let cs := t.toList
  if cs.length = 4 && cs.all Char.isDigit then some (natOfDigits cs)
  else none

/-- Parse a `%p` field: `AM`/`PM`, case-insensitively; `true` means PM. -/
def parseAmPm (t : String) : Option Bool :=
  if strLower t = "am" then some false
  else if strLower t = "pm" then some true
  else none

/-- Gregorian leap-year rule (as used by `datetime`). -/
def isLeapYear (y : Nat) : Bool :=
  y % 4 = 0 && (y % 100 != 0 || y % 400 = 0)

/-- Length of a month (`datetime` raises when the day exceeds this). -/
def daysInMonth (y m : Nat) : Nat :=
  if m = 2 then (if isLeapYear y then 29 else 28)
  else if m = 4 || m = 6 || m = 9 || m = 11 then 30
  else 31

/-- A naive local datetime, the result of `datetime.strptime`. -/
structure LocalDT where
  year : Nat
  month : Nat
  day : Nat
  hour : Nat
  minute : Nat
  deriving DecidableEq, Repr

/-- `datetime.strptime(s, "%B %d %Y %I:%M %p")` (`src/bot.py:250`):
month name, day 1-31, four-digit year, hour 1-12, colon, minute 0-59,
AM/PM marker — the whole string must be consumed, and the constructed
`datetime` validates the day against the month length and the year
against `datetime`'s range. -/
def strptime_schedule_format (s : String) : Option LocalDT :=
  match splitTokens s.toList [] with
  | [bTok, dTok, yTok, imTok, pTok] => do
    let month ← parseMonth (String.mk bTok)
    let day ← parse2Digit 1 31 (String.mk dTok)
    let year ← parse4DigitYear (String.mk yTok)
    let im ← match splitColon imTok [] with
             | [a, b] => some (String.mk a, String.mk b)
             | _ => none
    let hour12 ← parse2Digit 1 12 im.1
    let minute ← parse2Digit 0 59 im.2
    let pm ← parseAmPm (String.mk pTok)
    if 1 ≤ year && day ≤ daysInMonth year month then
      let hour24 := if pm then (if hour12 = 12 then 12 else hour12 + 12)
                    else (if hour12 = 12 then 0 else hour12)
      some ⟨year, month, day, hour24, minute⟩
    else none
  | _ => none

/-- Days before January 1 of a proleptic-Gregorian year. -/
def daysBeforeYear (y : Nat) : Nat :=
  (y - 1) * 365 + (y - 1) / 4 - (y - 1) / 100 + (y - 1) / 400

/-- Days of the year before the first of the given month. -/
def daysBeforeMonth (y m : Nat) : Nat :=
  (List.range (m - 1)).foldl (fun acc i => acc + daysInMonth y (i + 1)) 0

/-- A naive datetime as seconds on a linear timeline. -/
def epochSecondsOfLocal (dt : LocalDT) : Nat :=
  (((daysBeforeYear dt.year + daysBeforeMonth dt.year dt.month + (dt.day - 1)) * 24
      + dt.hour) * 60 + dt.minute) * 60

/-- Modelled from the source's `timezone('US/Pacific').localize(dt).astimezone(UTC)`
(`src/bot.py:251`): a total, strictly increasing shift onto the UTC
timeline, taken at the standard offset UTC-8. The daylight-saving part of
the year uses UTC-7 in the real library; no claim verified here depends on
the absolute offset, only on the map being total (the conversion never
raises, hence never causes a record to be skipped). -/
def pacificToUTC (t : Nat) : Nat := t + 8 * 60 * 60

/-- The per-record body of the `parse_schedule` loop
(`src/bot.py:240-264`): `none` models the per-record `except` that logs
and skips the block (a missing element's `get_text` raising
`AttributeError`, or `strptime`/`datetime` raising `ValueError`). -/
def parseEventBlock (year : Nat) (blk : Block) : Option EventData := do
  let dateText ← blk.gameDate
  let timeText ← blk.gameTime
  let opponent ← blk.opponentName
  let location := blk.themeNight.getD "TBD"
  let dt ← strptime_schedule_format (dateText ++ " " ++ toString year ++ " " ++ timeText)
  let start := pacificToUTC (epochSecondsOfLocal dt)
  some { name := "Midlakes " ++ opponent
       , start_time := start
       , end_time := start + 2 * 60 * 60
       , location := location
       , description := "Match " ++ opponent ++ " at " ++ location }

/-- The year-extraction step of `parse_schedule` (`src/bot.py:225-231`):
the first 4-digit run of the `h1` header text, when the header exists. -/
def extractYear (page : Page) : Option Nat :=
  page.h1.bind (fun t => findYear4 t.toList)

/-- `parse_schedule(html)` (`src/bot.py:197-267`): extract the reference
year from the `h1` header (raising when there is none — note that Python's
`if not year:` also rejects an extracted year equal to `0`), then parse
each `.Upcoming` block, silently skipping the ones that fail. -/
def parse_schedule (page : Page) : Except String (List EventData) :=
  let year := (extractYear page).getD 0
  if year = 0 then
    Except.error "Could not determine event year from page header"
  else
    Except.ok (page.blocks.filterMap (parseEventBlock year))

/-! ## The reconciliation run (`check_calendar`, `src/bot.py:344-447`)

One trigger of `check_calendar` is embedded as a function of an
environment fixing the gate state and the outcome of every outbound
attempt. The run produces a trace of the downstream interactions, a
terminal outcome, and the state of the gate afterwards. In Python the
trigger and its `lock.locked()` check run atomically up to the first
`await` of the run body (cooperative scheduling, and `Lock.acquire` on a
free lock does not suspend), so a trigger observes the gate either held
for a whole concurrent run or free; the embedding's `lockHeld` flag is
exactly that observation. -/

/-- One observable interaction of a run. `deleteCall` is the downstream
"delete appointment" operation: the script never issues it, but it is part
of the modelled API surface so that "no rollback" is statable. -/
inductive Action where
  | logNoOp
  | fetchSource (ok : Bool)
  | listEvents (ok : Bool)
  | createCall (name : String) (start : Nat) (ok : Bool)
  | announceCall (raised : Bool)
  | deleteCall (name : String) (start : Nat)
  | sleepBetween
  | logFailureWithDuration (err : String)
  deriving DecidableEq, Repr

/-- Terminal outcome of one trigger. `failed` is the branch of the outer
`except Exception` (`src/bot.py:445-447`): the error is caught and logged
with the run duration, and the process continues. -/
inductive RunOutcome where
  | noOp
  | earlyReturn
  | completed (created : Nat)
  | failed (err : String)
  deriving DecidableEq, Repr

/-- Result of one trigger of `check_calendar`. -/
structure RunResult where
  outcome : RunOutcome
  trace : List Action
  lockAfter : Bool
  deriving Repr

/-- The `events_created` count the run logs: the count of a completed run,
`0` for a no-op, early return or aborted run. -/
def RunResult.createdCount (r : RunResult) : Nat :=
  match r.outcome with
  | RunOutcome.completed n => n
  | _ => 0

/-- The per-candidate Discord-side environment: the guild's text-channel
names and the attempt oracles for the list call and for the create/send
calls of the candidate at each index. -/
structure GuildEnv where
  textChannels : List String
  listOutcomes : Nat → CallOutcome (List SEvent)
  createOutcomes : Nat → Nat → CallOutcome SEvent
  sendOutcomes : Nat → Nat → CallOutcome Unit

/-- The environment of one trigger. -/
structure Env where
  lockHeld : Bool
  announceChannelName : String
  fetchOutcomes : Nat → FetchOutcome Page
  guild : Option GuildEnv

/-- The mutable state of the candidate loop (`src/bot.py:408-439`):
the key set `existing_keys`, the counter `events_created`, and the trace
accumulated so far. -/
structure RunState where
  existing_keys : List (String × Nat)
  events_created : Nat
  trace : List Action

/-- The body of `for e in new_events:` (`src/bot.py:412-439`) for the
candidate at index `idx`. A duplicate key is skipped; otherwise the event
is created (`create_event_safely`), then announced
(`send_announcement_safely`), and only after a non-raising announcement
are the key recorded, the counter bumped and the 1-second pause slept;
any exception in the block (a create failure, the `AttributeError` on the
`None` fall-through of an all-rate-limited create, or an announce failure)
is caught at `src/bot.py:438` and the loop continues. -/
def processEvent (g : GuildEnv) (idx : Nat) (e : EventData) (st : RunState) :
    RunState :=
  let key := (e.name, e.start_time)
  if key ∈ st.existing_keys then st
  else
    match (create_event_safely (g.createOutcomes idx)).result with
    | Except.ok (some _ev) =>
      match (send_announcement_safely (g.sendOutcomes idx)).result with
      | Except.ok _ =>
          { existing_keys := st.existing_keys ++ [key]
          , events_created := st.events_created + 1
          , trace := st.trace ++ [Action.createCall e.name e.start_time true,
                                  Action.announceCall false, Action.sleepBetween] }
      | Except.error _ =>
          { st with trace := st.trace ++ [Action.createCall e.name e.start_time true,
                                          Action.announceCall true] }
    | Except.ok none =>
        { st with trace := st.trace ++ [Action.createCall e.name e.start_time false] }
    | Except.error _ =>
        { st with trace := st.trace ++ [Action.createCall e.name e.start_time false] }

/-- The candidate loop, in source order. -/
def processEvents (g : GuildEnv) : Nat → List EventData → RunState → RunState
  | _, [], st => st
  | idx, e :: rest, st => processEvents g (idx + 1) rest (processEvent g idx e st)

/-- One trigger of `check_calendar` (`src/bot.py:344-447`), timer-driven
or manual (`refresh_events` awaits the same function, `src/bot.py:472`).
If the gate is held the trigger logs and returns before any outbound call
(`src/bot.py:360-362`); otherwise the body runs under the gate, which the
`async with` releases on every exit path. The `Except.ok none` fetch case
(only reachable with a zero retry budget, never from this call site) is
mapped to the `TypeError` that parsing `None` would raise into the outer
`except`. -/
def check_calendar (env : Env) : RunResult :=
  if env.lockHeld then
    { outcome := RunOutcome.noOp, trace := [Action.logNoOp], lockAfter := true }
  else
    match (fetch_static_html_with_retry env.fetchOutcomes).result with
    | Except.error e =>
        { outcome := RunOutcome.failed e
        , trace := [Action.fetchSource false, Action.logFailureWithDuration e]
        , lockAfter := false }
    | Except.ok none =>
        { outcome := RunOutcome.failed "TypeError"
        , trace := [Action.fetchSource false, Action.logFailureWithDuration "TypeError"]
        , lockAfter := false }
    | Except.ok (some page) =>
      match parse_schedule page with
      | Except.error e =>
          { outcome := RunOutcome.failed e
          , trace := [Action.fetchSource true, Action.logFailureWithDuration e]
          , lockAfter := false }
      | Except.ok new_events =>
        match env.guild with
        | none =>
            { outcome := RunOutcome.earlyReturn
            , trace := [Action.fetchSource true]
            , lockAfter := false }
        | some g =>
          if env.announceChannelName ∈ g.textChannels then
            match (fetchExisting_go g.listOutcomes 3 0).result with
            | Except.error e =>
                { outcome := RunOutcome.failed e
                , trace := [Action.fetchSource true, Action.listEvents false,
                            Action.logFailureWithDuration e]
                , lockAfter := false }
            | Except.ok none =>
                { outcome := RunOutcome.earlyReturn
                , trace := [Action.fetchSource true, Action.listEvents false]
                , lockAfter := false }
            | Except.ok (some existing) =>
                let st0 : RunState :=
                  { existing_keys := existing.map (fun ev => (ev.name, ev.start_time))
                  , events_created := 0
                  , trace := [Action.fetchSource true, Action.listEvents true] }
                let stF := processEvents g 0 new_events st0
                { outcome := RunOutcome.completed stF.events_created
                , trace := stF.trace
                , lockAfter := false }
          else
            { outcome := RunOutcome.earlyReturn
            , trace := [Action.fetchSource true]
            , lockAfter := false }

/-! ## The presence reporter (`update_presence`, `src/bot.py:482-545`) -/

/-- The status computation of `update_presence` on a fetched event set
(`src/bot.py:522-532`): keep the events strictly in the future, sort them
ascending by start time (Python's `sorted` is stable; `insertionSort` with
a `≤` key relation is the same stable sort), and render either the
next-match line — with `delta.total_seconds() // 3600` whole hours — or
the fixed fallback. The two `utcnow()` calls of the source are modelled as
the same instant `now`. -/
def update_presence (now : Nat) (existing : List SEvent) : String :=
  let upcoming := (existing.filter (fun e => now < e.start_time)).insertionSort
      (fun a b => a.start_time ≤ b.start_time)
  match upcoming with
  | [] => "the Midlakes United Schedule"
  | next :: _ =>
      "Matchday in " ++ toString ((next.start_time - now) / 3600) ++ "h: " ++ next.name

/-! ## Trace predicates and fixtures -/

/-- A downstream create-appointment call (one retry envelope invocation). -/
def isCreateCall : Action → Bool
  | Action.createCall _ _ _ => true
  | _ => false

/-- A create call whose envelope returned a created event. -/
def isCreateOkCall : Action → Bool
  | Action.createCall _ _ ok => ok
  | _ => false

/-- An announcement whose envelope did not raise. -/
def isAnnounceOk : Action → Bool
  | Action.announceCall raised => !raised
  | _ => false

/-- The fixed 1-second inter-candidate pause (`src/bot.py:436`). -/
def isSleepBetween : Action → Bool
  | Action.sleepBetween => true
  | _ => false

/-- A downstream delete-appointment call (never issued by the script). -/
def isDeleteCall : Action → Bool
  | Action.deleteCall _ _ => true
  | _ => false

/-- A list-appointments call. -/
def isListCall : Action → Bool
  | Action.listEvents _ => true
  | _ => false

/-- Any outbound downstream interaction (fetch, list, create, announce,
delete). -/
def isDownstreamCall : Action → Bool
  | Action.fetchSource _ => true
  | Action.listEvents _ => true
  | Action.createCall _ _ _ => true
  | Action.announceCall _ => true
  | Action.deleteCall _ _ => true
  | _ => false

instance : IsTotal SEvent (fun a b => a.start_time ≤ b.start_time) :=
  ⟨fun a b => Nat.le_total a.start_time b.start_time⟩

instance : IsTrans SEvent (fun a b => a.start_time ≤ b.start_time) :=
  ⟨fun _ _ _ hab hbc => Nat.le_trans hab hbc⟩

/-- A well-formed `.Upcoming` block of the reference scenario. -/
def blkGood : Block := ⟨some "September 6", some "7:00 PM", some "Team A", none⟩

/-- A malformed block: its `.GameDate` element is missing, so
`select_one('.GameDate').get_text(...)` raises `AttributeError` and the
record is skipped. -/
def blkBad : Block := ⟨none, some "7:00 PM", some "Team B", none⟩

/-- The parse of `blkGood` under reference year 2025. -/
def evGood : EventData :=
  ⟨"Midlakes Team A", 63892810800, 63892818000, "TBD", "Match Team A at TBD"⟩

/-- A page with one good block. -/
def pageOne : Page := ⟨some "Schedule 2025", [blkGood]⟩

/-- A page that (incorrectly) lists the same match twice. -/
def pageTwo : Page := ⟨some "Schedule 2025", [blkGood, blkGood]⟩

/-- A page with one good and one malformed block. -/
def pageMix : Page := ⟨some "Schedule 2025", [blkGood, blkBad]⟩

/-! ## Helper lemmas -/

/-- `filterMap` keeps exactly the records `f` does not reject. -/
theorem length_filterMap_sub {α β : Type} (f : α → Option β) (l : List α) :
    (l.filterMap f).length = l.length - l.countP (fun a => (f a).isNone) := by
  induction l with
  | nil => simp
  | cons a l ih =>
    have hle : l.countP (fun a => (f a).isNone) ≤ l.length := List.countP_le_length _
    cases h : f a with
    | none => simp [List.filterMap_cons, h, List.countP_cons, ih]
    | some b =>
      simp only [List.filterMap_cons, h, List.countP_cons, List.length_cons, ih,
        Option.isNone_some, Bool.false_eq_true, if_false]
      omega

/-- One candidate step preserves the run-state accounting: the counter
equals the number of non-raising announcements, the 1-second pauses match
the counter, and no delete is ever issued. -/
theorem processEvent_inv (g : GuildEnv) (idx : Nat) (e : EventData) (st : RunState)
    (h1 : st.events_created = st.trace.countP isAnnounceOk)
    (h2 : st.trace.countP isSleepBetween = st.events_created)
    (h3 : st.trace.countP isDeleteCall = 0) :
    ((processEvent g idx e st).events_created
        = (processEvent g idx e st).trace.countP isAnnounceOk) ∧
    ((processEvent g idx e st).trace.countP isSleepBetween
        = (processEvent g idx e st).events_created) ∧
    ((processEvent g idx e st).trace.countP isDeleteCall = 0) := by
  by_cases hk : (e.name, e.start_time) ∈ st.existing_keys
  · simp only [processEvent, if_pos hk]
    exact ⟨h1, h2, h3⟩
  · rcases hc : (create_event_safely (g.createOutcomes idx)).result with eC | o
    · simp [processEvent, if_neg hk, hc, List.countP_append, List.countP_cons,
        isAnnounceOk, isSleepBetween, isDeleteCall, h1, h2, h3]
    · cases o with
      | none =>
        simp [processEvent, if_neg hk, hc, List.countP_append, List.countP_cons,
          isAnnounceOk, isSleepBetween, isDeleteCall, h1, h2, h3]
      | some ev =>
        rcases hs : (send_announcement_safely (g.sendOutcomes idx)).result with eS | o2
        · simp [processEvent, if_neg hk, hc, hs, List.countP_append, List.countP_cons,
            isAnnounceOk, isSleepBetween, isDeleteCall, h1, h2, h3]
        · simp [processEvent, if_neg hk, hc, hs, List.countP_append, List.countP_cons,
            isAnnounceOk, isSleepBetween, isDeleteCall, h1, h2, h3]

/-- The candidate loop preserves the run-state accounting. -/
theorem processEvents_inv (g : GuildEnv) (evs : List EventData) :
    ∀ (idx : Nat) (st : RunState),
      st.events_created = st.trace.countP isAnnounceOk →
      st.trace.countP isSleepBetween = st.events_created →
      st.trace.countP isDeleteCall = 0 →
      ((processEvents g idx evs st).events_created
          = (processEvents g idx evs st).trace.countP isAnnounceOk) ∧
      ((processEvents g idx evs st).trace.countP isSleepBetween
          = (processEvents g idx evs st).events_created) ∧
      ((processEvents g idx evs st).trace.countP isDeleteCall = 0) := by
  induction evs with
  | nil => exact fun idx st h1 h2 h3 => ⟨h1, h2, h3⟩
  | cons e rest ih =>
    intro idx st h1 h2 h3
    have h := processEvent_inv g idx e st h1 h2 h3
    simpa [processEvents] using ih (idx + 1) (processEvent g idx e st) h.1 h.2.1 h.2.2

/-! ## Claim theorems -/

/-- C3 (code bug at the source): the retry envelopes of
`create_event_safely` and `send_announcement_safely` do NOT always
propagate terminal failure. When every attempt fails rate-limited
(HTTP 429), the loop consumes the whole attempt budget of 3 in its 429
branch and then falls off the end, returning `None` instead of raising —
contradicting both the claim and the function's own docstring ("Raises:
discord.HTTPException: If all retry attempts fail"). This theorem
evaluates the envelope at that failing input: three attempts, advised
wait honoured each time, and a silent `None` result. -/
theorem create_event_safely_swallows_terminal_rate_limit :
    create_event_safely (fun _ => CallOutcome.httpError 429 (some 1)) 3 =
      { result := Except.ok none, attempts := 3, sleeps := [1, 1, 1] } ∧
    send_announcement_safely (fun _ => CallOutcome.httpError 429 (some 1)) 3 =
      { result := Except.ok none, attempts := 3, sleeps := [1, 1, 1] } := by
  constructor <;> rfl

/-- C6: a rate-limited attempt (HTTP 429) makes every Discord-side retry
envelope (`create_event_safely`, `send_announcement_safely`, and the
inline list loop) sleep exactly the server-advised delay `d` — hence at
least `d`, and not the exponential default — before the next attempt;
when no delay is advised it sleeps `2 ^ attempt`; and in both cases the
rate-limited response consumes exactly one attempt of the remaining
budget (`rem + 1` becomes `rem`, attempts grow by one). -/
theorem retry_envelope_rate_limit_wait
    (ocC : Nat → CallOutcome SEvent) (ocS : Nat → CallOutcome Unit)
    (ocL : Nat → CallOutcome (List SEvent)) (rem attempt d : Nat) :
    (ocC attempt = CallOutcome.httpError 429 (some d) →
      create_go ocC (rem + 1) attempt =
        { result := (create_go ocC rem (attempt + 1)).result
        , attempts := (create_go ocC rem (attempt + 1)).attempts + 1
        , sleeps := d :: (create_go ocC rem (attempt + 1)).sleeps }) ∧
    (ocC attempt = CallOutcome.httpError 429 none →
      create_go ocC (rem + 1) attempt =
        { result := (create_go ocC rem (attempt + 1)).result
        , attempts := (create_go ocC rem (attempt + 1)).attempts + 1
        , sleeps := 2 ^ attempt :: (create_go ocC rem (attempt + 1)).sleeps }) ∧
    (ocS attempt = CallOutcome.httpError 429 (some d) →
      send_go ocS (rem + 1) attempt =
        { result := (send_go ocS rem (attempt + 1)).result
        , attempts := (send_go ocS rem (attempt + 1)).attempts + 1
        , sleeps := d :: (send_go ocS rem (attempt + 1)).sleeps }) ∧
    (ocS attempt = CallOutcome.httpError 429 none →
      send_go ocS (rem + 1) attempt =
        { result := (send_go ocS rem (attempt + 1)).result
        , attempts := (send_go ocS rem (attempt + 1)).attempts + 1
        , sleeps := 2 ^ attempt :: (send_go ocS rem (attempt + 1)).sleeps }) ∧
    (ocL attempt = CallOutcome.httpError 429 (some d) →
      fetchExisting_go ocL (rem + 1) attempt =
        { result := (fetchExisting_go ocL rem (attempt + 1)).result
        , attempts := (fetchExisting_go ocL rem (attempt + 1)).attempts + 1
        , sleeps := d :: (fetchExisting_go ocL rem (attempt + 1)).sleeps }) ∧
    (ocL attempt = CallOutcome.httpError 429 none →
      fetchExisting_go ocL (rem + 1) attempt =
        { result := (fetchExisting_go ocL rem (attempt + 1)).result
        , attempts := (fetchExisting_go ocL rem (attempt + 1)).attempts + 1
        , sleeps := 2 ^ attempt :: (fetchExisting_go ocL rem (attempt + 1)).sleeps }) := by
  refine ⟨?_, ?_, ?_, ?_, ?_, ?_⟩ <;> intro h <;>
    simp [create_go, send_go, fetchExisting_go, h]

/-- Witness for C6 at a concrete rate-limited outcome with advised delay 7. -/
theorem retry_envelope_rate_limit_wait_witness :
    create_go (fun _ => CallOutcome.httpError 429 (some 7)) 2 0 =
      { result := (create_go (fun _ => CallOutcome.httpError 429 (some 7)) 1 1).result
      , attempts := (create_go (fun _ => CallOutcome.httpError 429 (some 7)) 1 1).attempts + 1
      , sleeps := 7 :: (create_go (fun _ => CallOutcome.httpError 429 (some 7)) 1 1).sleeps } :=
  (retry_envelope_rate_limit_wait (fun _ => CallOutcome.httpError 429 (some 7))
    (fun _ => CallOutcome.httpError 429 none) (fun _ => CallOutcome.success [])
    1 0 7).1 rfl

/-- C2: a trigger that finds the mutual-exclusion gate held is a logged
no-op — its entire trace is the single skip log, so it performs zero
downstream fetch, list or create calls and leaves the gate to the run
that holds it. Conversely (by the `if` in `check_calendar`, whose check
runs atomically with the acquisition under cooperative scheduling), the
gated body is entered only when the gate is unheld. -/
theorem check_calendar_gate_noop (env : Env) (h : env.lockHeld = true) :
    check_calendar env =
      { outcome := RunOutcome.noOp, trace := [Action.logNoOp], lockAfter := true } ∧
    (check_calendar env).trace.countP isDownstreamCall = 0 := by
  have e : check_calendar env =
      { outcome := RunOutcome.noOp, trace := [Action.logNoOp], lockAfter := true } := by
    simp [check_calendar, h]
  refine ⟨e, ?_⟩
  rw [e]
  rfl

/-- An environment whose gate is currently held by a running
reconciliation. -/
def envBusy : Env :=
  { lockHeld := true
  , announceChannelName := "announcements"
  , fetchOutcomes := fun _ => FetchOutcome.err "unused"
  , guild := none }

/-- Witness for C2: a concrete held-gate trigger. -/
theorem check_calendar_gate_noop_witness :
    check_calendar envBusy =
      { outcome := RunOutcome.noOp, trace := [Action.logNoOp], lockAfter := true } ∧
    (check_calendar envBusy).trace.countP isDownstreamCall = 0 :=
  check_calendar_gate_noop envBusy rfl

/-- C8 counterexample: the parse does NOT fail "exactly when no 4-digit
reference year can be extracted". From the header `"Season 0000"` the
regex extracts the 4-digit run `0000`, i.e. year `0`, yet Python's
`if not year:` treats `0` as missing and raises anyway. -/
theorem parse_schedule_rejects_year_0000 :
    findYear4 "Season 0000".toList = some 0 ∧
    parse_schedule ⟨some "Season 0000", [blkGood]⟩ =
      Except.error "Could not determine event year from page header" := by
  exact ⟨by decide, rfl⟩

/-- C8 (amended): `parse_schedule` raises exactly when the extracted year
defaults to `0` — no header, no 4-digit run in it, or a first 4-digit run
equal to `0000`. Otherwise it returns the blocks that parse, in order,
silently skipping each malformed one: the result's length is the batch
size minus the number of rejected records (so one bad record among `n`
yields `n - 1`). -/
theorem parse_schedule_year_gate_and_partial_tolerance (page : Page) :
    ((extractYear page).getD 0 = 0 ↔
      parse_schedule page = Except.error "Could not determine event year from page header") ∧
    (∀ y, extractYear page = some y → y ≠ 0 →
      parse_schedule page = Except.ok (page.blocks.filterMap (parseEventBlock y)) ∧
      (page.blocks.filterMap (parseEventBlock y)).length =
        page.blocks.length - page.blocks.countP (fun b => (parseEventBlock y b).isNone)) := by
  constructor
  · constructor
    · intro h
      simp [parse_schedule, h]
    · intro h
      by_contra hne
      simp [parse_schedule, hne] at h
  · intro y hy h0
    refine ⟨?_, length_filterMap_sub _ _⟩
    simp [parse_schedule, hy, h0]

/-- Witness for C8 at a two-record batch with one malformed record:
the good record is returned, the bad one silently skipped. -/
theorem parse_schedule_year_gate_and_partial_tolerance_witness :
    parse_schedule pageMix = Except.ok (pageMix.blocks.filterMap (parseEventBlock 2025)) ∧
    (pageMix.blocks.filterMap (parseEventBlock 2025)).length =
      pageMix.blocks.length -
        pageMix.blocks.countP (fun b => (parseEventBlock 2025 b).isNone) :=
  (parse_schedule_year_gate_and_partial_tolerance pageMix).2 2025 rfl (by decide)

/-- C9: on any fetched appointment set, the presence reporter keeps only
appointments strictly after `now`; if none remain it renders the fixed
fallback string, and otherwise it renders the fixed-format status naming
an earliest future appointment — one that is in the set, is strictly
future, has minimal start time among all future appointments — with the
whole-hours floor `(start - now) / 3600`. -/
theorem update_presence_correct (now : Nat) (existing : List SEvent) :
    (existing.filter (fun e => now < e.start_time) = [] →
      update_presence now existing = "the Midlakes United Schedule") ∧
    (∀ x, x ∈ existing.filter (fun e => now < e.start_time) →
      ∃ e, e ∈ existing ∧ now < e.start_time ∧
        (∀ f, f ∈ existing → now < f.start_time → e.start_time ≤ f.start_time) ∧
        update_presence now existing =
          "Matchday in " ++ toString ((e.start_time - now) / 3600) ++ "h: " ++ e.name) := by
  constructor
  · intro h
    simp [update_presence, h]
  · intro x hx
    rcases hs : (existing.filter (fun e => now < e.start_time)).insertionSort
        (fun a b => a.start_time ≤ b.start_time) with _ | ⟨e, t⟩
    · exfalso
      have : existing.filter (fun e => now < e.start_time) = [] := by
        have hperm := List.perm_insertionSort
          (fun a b : SEvent => a.start_time ≤ b.start_time)
          (existing.filter (fun e => now < e.start_time))
        rw [hs] at hperm
        exact hperm.symm.eq_nil
      rw [this] at hx
      exact absurd hx (List.not_mem_nil x)
    · have hmem : e ∈ existing.filter (fun f => now < f.start_time) := by
        have := List.mem_insertionSort
          (fun a b : SEvent => a.start_time ≤ b.start_time)
          (l := existing.filter (fun f => now < f.start_time)) (x := e)
        rw [hs] at this
        exact this.mp (List.mem_cons_self e t)
      have hmem2 : e ∈ existing ∧ now < e.start_time := by
        have := List.mem_filter.mp hmem
        exact ⟨this.1, by simpa using this.2⟩
      have hsorted := List.sorted_insertionSort
        (fun a b : SEvent => a.start_time ≤ b.start_time)
        (existing.filter (fun f => now < f.start_time))
      rw [hs] at hsorted
      have hmin : ∀ f, f ∈ existing → now < f.start_time → e.start_time ≤ f.start_time := by
        intro f hf hnf
        have hfl : f ∈ existing.filter (fun g => now < g.start_time) := by
          rw [List.mem_filter]
          exact ⟨hf, by simpa using hnf⟩
        have hfs : f ∈ e :: t := by
          have := List.mem_insertionSort
            (fun a b : SEvent => a.start_time ≤ b.start_time)
            (l := existing.filter (fun g => now < g.start_time)) (x := f)
          rw [hs] at this
          exact this.mpr hfl
        rcases List.mem_cons.mp hfs with hfe | hft
        · exact hfe ▸ Nat.le_refl _
        · exact (List.pairwise_cons.mp hsorted).1 f hft
      refine ⟨e, hmem2.1, hmem2.2, hmin, ?_⟩
      simp only [update_presence, hs]

/-- Witness for C9, mirroring the spec's presence example: one future
appointment 5.4 hours (19440 s) out renders the floor of 5 hours; with
the appointment in the past, the fallback renders. -/
theorem update_presence_correct_witness :
    (∃ e, e ∈ [SEvent.mk "Midlakes Team A" 19440] ∧ 0 < e.start_time ∧
      (∀ f, f ∈ [SEvent.mk "Midlakes Team A" 19440] → 0 < f.start_time →
        e.start_time ≤ f.start_time) ∧
      update_presence 0 [SEvent.mk "Midlakes Team A" 19440] =
        "Matchday in " ++ toString ((e.start_time - 0) / 3600) ++ "h: " ++ e.name) ∧
    update_presence 19440 [SEvent.mk "Midlakes Team A" 19440] =
      "the Midlakes United Schedule" :=
  ⟨(update_presence_correct 0 [SEvent.mk "Midlakes Team A" 19440]).2
      (SEvent.mk "Midlakes Team A" 19440) (by decide),
   (update_presence_correct 19440 [SEvent.mk "Midlakes Team A" 19440]).1 (by decide)⟩

/-- Accounting of a whole trigger, every branch of `check_calendar`: the
logged created-count equals the number of non-raising announcements, the
1-second pauses match it, and no delete is ever issued. -/
theorem check_calendar_trace_counts (env : Env) :
    (check_calendar env).createdCount = (check_calendar env).trace.countP isAnnounceOk ∧
    (check_calendar env).trace.countP isSleepBetween = (check_calendar env).createdCount ∧
    (check_calendar env).trace.countP isDeleteCall = 0 := by
  unfold check_calendar
  split
  · simp [RunResult.createdCount, isAnnounceOk, isSleepBetween, isDeleteCall]
  · split
    · simp [RunResult.createdCount, isAnnounceOk, isSleepBetween, isDeleteCall]
    · simp [RunResult.createdCount, isAnnounceOk, isSleepBetween, isDeleteCall]
    · split
      · simp [RunResult.createdCount, isAnnounceOk, isSleepBetween, isDeleteCall]
      · split
        · simp [RunResult.createdCount, isAnnounceOk, isSleepBetween, isDeleteCall]
        · split
          · split
            · simp [RunResult.createdCount, isAnnounceOk, isSleepBetween, isDeleteCall]
            · simp [RunResult.createdCount, isAnnounceOk, isSleepBetween, isDeleteCall]
            · simp only [RunResult.createdCount]
              exact processEvents_inv _ _ 0 _ rfl rfl rfl
          · simp [RunResult.createdCount, isAnnounceOk, isSleepBetween, isDeleteCall]

/-- C5 (amended): once a candidate's create has succeeded, a failing
notification is not rolled back — the script has no delete call at all —
and the run continues; but the count the run logs equals the number of
candidates whose create AND announcement both succeeded (the counter is
incremented only after a non-raising announcement), so it can undercount
the successful creates. -/
theorem check_calendar_created_eq_announced (env : Env) :
    (check_calendar env).createdCount = (check_calendar env).trace.countP isAnnounceOk ∧
    (check_calendar env).trace.countP isDeleteCall = 0 :=
  ⟨(check_calendar_trace_counts env).1, (check_calendar_trace_counts env).2.2⟩

/-- C7 (amended): the fixed 1-second pause is inserted exactly after each
fully successful candidate (create and announcement both succeeded) — and
for no other candidate: skipped duplicates and failed creates or
announcements are followed by no delay. -/
theorem check_calendar_delay_only_after_success (env : Env) :
    (check_calendar env).trace.countP isSleepBetween = (check_calendar env).createdCount :=
  (check_calendar_trace_counts env).2.1

/-- C4: the gate is released on every exit path — a trigger never leaves
the gate more held than it found it (`lockAfter = lockHeld`, and a
skipped trigger leaves the holder's gate untouched) — and an error
escaping the fetch stage or the index-load stage only aborts the current
run: it is caught by the outer handler and logged with the run duration
(the trace ends in the duration-carrying failure log), no create is ever
reached, and the trigger still returns a result instead of propagating
(the process survives). -/
theorem check_calendar_gate_released_and_nonfatal (env : Env) :
    (check_calendar env).lockAfter = env.lockHeld ∧
    (∀ e, env.lockHeld = false →
      (fetch_static_html_with_retry env.fetchOutcomes).result = Except.error e →
      (check_calendar env).outcome = RunOutcome.failed e ∧
      (check_calendar env).trace.countP isCreateCall = 0 ∧
      (check_calendar env).trace.getLast? = some (Action.logFailureWithDuration e)) ∧
    (∀ g page evs e, env.lockHeld = false → env.guild = some g →
      env.announceChannelName ∈ g.textChannels →
      (fetch_static_html_with_retry env.fetchOutcomes).result = Except.ok (some page) →
      parse_schedule page = Except.ok evs →
      (fetchExisting_go g.listOutcomes 3 0).result = Except.error e →
      (check_calendar env).outcome = RunOutcome.failed e ∧
      (check_calendar env).trace.countP isCreateCall = 0 ∧
      (check_calendar env).trace.getLast? = some (Action.logFailureWithDuration e)) := by
  refine ⟨?_, ?_, ?_⟩
  · unfold check_calendar
    split
    · simp_all
    · rename_i h
      have hl : env.lockHeld = false := by simpa using h
      split
      · simp [hl]
      · simp [hl]
      · split
        · simp [hl]
        · split
          · simp [hl]
          · split
            · split
              · simp [hl]
              · simp [hl]
              · simp [hl]
            · simp [hl]
  · intro e hl hf
    have he : check_calendar env =
        { outcome := RunOutcome.failed e
        , trace := [Action.fetchSource false, Action.logFailureWithDuration e]
        , lockAfter := false } := by
      simp [check_calendar, hl, hf]
    rw [he]
    exact ⟨rfl, rfl, rfl⟩
  · intro g page evs e hl hg hch hf hp hlist
    have he : check_calendar env =
        { outcome := RunOutcome.failed e
        , trace := [Action.fetchSource true, Action.listEvents false,
                    Action.logFailureWithDuration e]
        , lockAfter := false } := by
      simp [check_calendar, hl, hg, hch, hf, hp, hlist]
    rw [he]
    exact ⟨rfl, rfl, rfl⟩

/-- C10: when the guild cannot be resolved, or it has no text channel of
the configured announcement name, a run whose fetch and parse succeeded
returns early: no list call, no create, nothing counted as created, no
error outcome, and the gate is free afterwards. -/
theorem check_calendar_early_return_before_downstream (env : Env) (page : Page)
    (evs : List EventData)
    (hl : env.lockHeld = false)
    (hf : (fetch_static_html_with_retry env.fetchOutcomes).result = Except.ok (some page))
    (hp : parse_schedule page = Except.ok evs)
    (hg : env.guild = none ∨
      ∃ g, env.guild = some g ∧ env.announceChannelName ∉ g.textChannels) :
    (check_calendar env).outcome = RunOutcome.earlyReturn ∧
    (check_calendar env).createdCount = 0 ∧
    (check_calendar env).trace.countP isListCall = 0 ∧
    (check_calendar env).trace.countP isCreateCall = 0 ∧
    (check_calendar env).lockAfter = false := by
  have he : check_calendar env =
      { outcome := RunOutcome.earlyReturn
      , trace := [Action.fetchSource true]
      , lockAfter := false } := by
    rcases hg with hg | ⟨g, hg, hch⟩
    · simp [check_calendar, hl, hf, hp, hg]
    · simp [check_calendar, hl, hf, hp, hg, hch]
  rw [he]
  exact ⟨rfl, rfl, rfl, rfl, rfl⟩

/-- Environment of C1's failing input: the feed lists the same match
twice, every create succeeds, and the announcement of the first candidate
fails (HTTP 500) on all three attempts. -/
def envDupNotifyFail : Env :=
  { lockHeld := false
  , announceChannelName := "announcements"
  , fetchOutcomes := fun _ => FetchOutcome.ok pageTwo
  , guild := some
      { textChannels := ["announcements"]
      , listOutcomes := fun _ => CallOutcome.success []
      , createOutcomes := fun _ _ => CallOutcome.success ⟨"Midlakes Team A", 63892810800⟩
      , sendOutcomes := fun i _ =>
          if i = 0 then CallOutcome.httpError 500 none else CallOutcome.success () } }

/-- C1 (code bug at the source): `existing_keys.add(key)` runs only after
a successful announcement (`src/bot.py:432` sits after line 429 inside
the same `try`), so when the first candidate's announcement fails, its
key is never recorded and a second candidate with the identical
`(title, start)` key triggers a SECOND downstream create in the same run
— the batch of two identical records yields two creates, not one. -/
theorem check_calendar_duplicate_create_on_notify_failure :
    parse_schedule pageTwo = Except.ok [evGood, evGood] ∧
    (check_calendar envDupNotifyFail).trace.countP isCreateCall = 2 ∧
    (check_calendar envDupNotifyFail).createdCount = 1 := by
  exact ⟨rfl, by decide, by decide⟩

/-- Environment of C5's counterexample: one candidate, its create
succeeds, its announcement fails every attempt with HTTP 500. -/
def envNotifyFail : Env :=
  { lockHeld := false
  , announceChannelName := "announcements"
  , fetchOutcomes := fun _ => FetchOutcome.ok pageOne
  , guild := some
      { textChannels := ["announcements"]
      , listOutcomes := fun _ => CallOutcome.success []
      , createOutcomes := fun _ _ => CallOutcome.success ⟨"Midlakes Team A", 63892810800⟩
      , sendOutcomes := fun _ _ => CallOutcome.httpError 500 none } }

/-- C5 counterexample: a run with exactly one successful downstream
create whose announcement then fails reports a created-count of 0 — the
returned count is NOT the number of successful creates. -/
theorem check_calendar_count_misses_unannounced_create :
    (check_calendar envNotifyFail).trace.countP isCreateOkCall = 1 ∧
    (check_calendar envNotifyFail).createdCount = 0 := by
  exact ⟨by decide, by decide⟩

/-- Witness for the amended C5 at the concrete notification-failure run. -/
theorem check_calendar_created_eq_announced_witness :
    (check_calendar envNotifyFail).createdCount =
      (check_calendar envNotifyFail).trace.countP isAnnounceOk ∧
    (check_calendar envNotifyFail).trace.countP isDeleteCall = 0 :=
  check_calendar_created_eq_announced envNotifyFail

/-- Environment of C7's counterexample: both candidates of the feed are
already present downstream, so both are skipped as duplicates. -/
def envAllDup : Env :=
  { lockHeld := false
  , announceChannelName := "announcements"
  , fetchOutcomes := fun _ => FetchOutcome.ok pageTwo
  , guild := some
      { textChannels := ["announcements"]
      , listOutcomes := fun _ => CallOutcome.success [⟨"Midlakes Team A", 63892810800⟩]
      , createOutcomes := fun _ _ => CallOutcome.success ⟨"Midlakes Team A", 63892810800⟩
      , sendOutcomes := fun _ _ => CallOutcome.success () } }

/-- C7 counterexample: a run that processes two candidates, skipping both
as duplicates, sleeps the fixed 1-second delay zero times — the delay is
NOT inserted for skipped (nor failed) candidates, only on the full
success path (`src/bot.py:436` is inside the `try`, after the counter). -/
theorem check_calendar_no_delay_on_skip :
    parse_schedule pageTwo = Except.ok [evGood, evGood] ∧
    (check_calendar envAllDup).outcome = RunOutcome.completed 0 ∧
    (check_calendar envAllDup).trace.countP isCreateCall = 0 ∧
    (check_calendar envAllDup).trace.countP isSleepBetween = 0 := by
  exact ⟨rfl, by decide, by decide, by decide⟩

/-- Witness for the amended C7 at the concrete all-duplicates run. -/
theorem check_calendar_delay_only_after_success_witness :
    (check_calendar envAllDup).trace.countP isSleepBetween =
      (check_calendar envAllDup).createdCount :=
  check_calendar_delay_only_after_success envAllDup

/-- Environment whose fetch fails every attempt. -/
def envFetchFail : Env :=
  { lockHeld := false
  , announceChannelName := "announcements"
  , fetchOutcomes := fun _ => FetchOutcome.err "boom"
  , guild := none }

/-- Environment whose index-load (list) call fails every attempt with a
non-rate-limit error. -/
def envListFail : Env :=
  { lockHeld := false
  , announceChannelName := "announcements"
  , fetchOutcomes := fun _ => FetchOutcome.ok pageOne
  , guild := some
      { textChannels := ["announcements"]
      , listOutcomes := fun _ => CallOutcome.httpError 500 none
      , createOutcomes := fun _ _ => CallOutcome.success ⟨"Midlakes Team A", 63892810800⟩
      , sendOutcomes := fun _ _ => CallOutcome.success () } }

/-- Witness for C4: a failing fetch and a failing index-load each abort
only their run — logged with duration, no create reached, gate free. -/
theorem check_calendar_gate_released_and_nonfatal_witness :
    ((check_calendar envFetchFail).outcome = RunOutcome.failed "boom" ∧
     (check_calendar envFetchFail).trace.countP isCreateCall = 0 ∧
     (check_calendar envFetchFail).trace.getLast? =
       some (Action.logFailureWithDuration "boom")) ∧
    ((check_calendar envListFail).outcome = RunOutcome.failed (httpErrMsg 500) ∧
     (check_calendar envListFail).trace.countP isCreateCall = 0 ∧
     (check_calendar envListFail).trace.getLast? =
       some (Action.logFailureWithDuration (httpErrMsg 500))) :=
  ⟨(check_calendar_gate_released_and_nonfatal envFetchFail).2.1 "boom" rfl rfl,
   (check_calendar_gate_released_and_nonfatal envListFail).2.2 _ pageOne [evGood]
     (httpErrMsg 500) rfl rfl (by decide) rfl rfl rfl⟩

/-- Environment whose guild lookup fails after a successful fetch. -/
def envNoGuild : Env :=
  { lockHeld := false
  , announceChannelName := "announcements"
  , fetchOutcomes := fun _ => FetchOutcome.ok pageOne
  , guild := none }

/-- Witness for C10: with the guild unresolvable, the run returns early
after fetch and parse, before any list or create call. -/
theorem check_calendar_early_return_before_downstream_witness :
    (check_calendar envNoGuild).outcome = RunOutcome.earlyReturn ∧
    (check_calendar envNoGuild).createdCount = 0 ∧
    (check_calendar envNoGuild).trace.countP isListCall = 0 ∧
    (check_calendar envNoGuild).trace.countP isCreateCall = 0 ∧
    (check_calendar envNoGuild).lockAfter = false :=
  check_calendar_early_return_before_downstream envNoGuild pageOne [evGood]
    rfl rfl rfl (Or.inl rfl)

end MidlakesBot
